import Mathlib

/-!
Verification of the speech-correction repository's question-answering agent
(`src/snowflake_agent.py`) and the session-state flow of the voice-assistant
page (`src/new-app.py`).

Shallow embedding conventions:
* The file system is modelled by the content of the FAQ document at its fixed
  relative location: `Option String` (`none` = the file is absent).
* The environment variable `CEREBRAS_API_KEY` is modelled by `Option String`
  (`none` = unset; `some ""` = set to the empty string).
* The hosted chat-completion service is an oracle
  `remote : String → ChatRequest → Except String ChatResponse`: it receives the
  api key the client was constructed with and the request, and either returns a
  response object or raises an exception carried as its string form `str(e)`.
* Python truthiness of an optional string (`None` and `""` are falsy) is made
  explicit with `pyTruthy` / `pyOr`.
-/

/-- A role-tagged message sent to the chat-completion endpoint
(the dictionaries built in `SnowflakeAgent.answer`). -/
structure ChatMessage where
  role : String
  content : String
deriving DecidableEq, Repr

/-- The payload of `client.chat.completions.create`: a model identifier and an
ordered list of messages. -/
structure ChatRequest where
  model : String
  messages : List ChatMessage
deriving DecidableEq, Repr

/-- The message object inside a response choice; `content` is the text the
code trims and returns. -/
structure RespMessage where
  content : String
deriving DecidableEq, Repr

/-- One response choice; `message = none` models a falsy `choices[0].message`,
which the code treats as a degenerate response. -/
structure Choice where
  message : Option RespMessage
deriving DecidableEq, Repr

/-- A chat-completion response. `choices = none` models an object with no
`choices` attribute (the `hasattr` guard in the code); `some l` is the list of
choices. -/
structure ChatResponse where
  choices : Option (List Choice)
deriving DecidableEq, Repr

/-- Python truthiness of an optional string: `None` and `""` are falsy,
every other string is truthy. -/
def pyTruthy : Option String → Bool
  | none => false
  | some s => s != ""

/-- Python `a or b` on optional strings: the first operand when truthy,
otherwise the second. -/
def pyOr (a b : Option String) : Option String :=
  if pyTruthy a then a else b

/-- Embeds `load_faq_content` of `src/snowflake_agent.py`: if the FAQ document
exists at `FAQ_PATH`, return its full text; otherwise return the empty
string. The argument is the file-system state at the fixed path. -/
def load_faq_content : Option String → String
  | some text => text
  | none => ""

/-- Embeds the module-level `FAQ_CONTENT = load_faq_content()`: the FAQ text
captured once, at module import, from the file-system state at that moment. -/
def FAQ_CONTENT (fs : Option String) : String :=
  load_faq_content fs

/-- The part of the `SYSTEM_PROMPT` f-string before the interpolated
`FAQ_CONTENT`, ending with the opening separator line. -/
def promptIntro : String :=
  "You are a helpful Snowflake expert assistant. Your role is to answer questions about Snowflake data platform concepts, features, and terminology.\n\nYou have access to the following Snowflake FAQ knowledge base:\n\n---\n"

/-- The part of the `SYSTEM_PROMPT` f-string after the interpolated
`FAQ_CONTENT`, starting with the closing separator line. -/
def promptInstructions : String :=
  "\n---\n\nInstructions:\n1. Answer questions based on the FAQ content above.\n2. If the question relates to a topic in the FAQ, provide a clear and concise answer.\n3. If the question is about Snowflake but not covered in the FAQ, provide your best knowledge but mention that it may not be in the official glossary.\n4. If the question is not related to Snowflake at all, politely redirect the user to ask Snowflake-related questions.\n5. Be conversational and helpful.\n6. When relevant, mention related concepts the user might want to learn about.\n"

/-- The `SYSTEM_PROMPT` f-string as a function of the interpolated FAQ text. -/
def mkSystemPrompt (faq : String) : String :=
  promptIntro ++ faq ++ promptInstructions

/-- The text of `promptIntro` before its trailing separator line. -/
def promptIntroHead : String :=
  "You are a helpful Snowflake expert assistant. Your role is to answer questions about Snowflake data platform concepts, features, and terminology.\n\nYou have access to the following Snowflake FAQ knowledge base:\n\n"

/-- The text of `promptInstructions` after its leading separator line. -/
def promptInstructionsTail : String :=
  "\n\nInstructions:\n1. Answer questions based on the FAQ content above.\n2. If the question relates to a topic in the FAQ, provide a clear and concise answer.\n3. If the question is about Snowflake but not covered in the FAQ, provide your best knowledge but mention that it may not be in the official glossary.\n4. If the question is not related to Snowflake at all, politely redirect the user to ask Snowflake-related questions.\n5. Be conversational and helpful.\n6. When relevant, mention related concepts the user might want to learn about.\n"

/-- Embeds the module-level `SYSTEM_PROMPT`: the fixed instruction block with
the startup FAQ content interpolated between the separator lines. -/
def SYSTEM_PROMPT (fs : Option String) : String :=
  mkSystemPrompt (FAQ_CONTENT fs)

/-- The error raised by `SnowflakeAgent.__init__` when no credential is
available (a `ValueError` in the source; the configuration error of the
design). -/
inductive InitError where
  | configurationError (msg : String)
deriving DecidableEq, Repr

/-- The message of the missing-credential error in `SnowflakeAgent.__init__`. -/
def keyRequiredMsg : String :=
  "Cerebras API key is required. Pass it to the constructor or set the CEREBRAS_API_KEY environment variable."

/-- The constructed agent: `__init__` stores the effective api key and the
fixed model identifier. The `Cerebras` client object is represented by the
key it is constructed with (the key is what the outbound calls depend on). -/
structure SnowflakeAgent where
  api_key : String
  model : String
deriving DecidableEq, Repr

/-- Embeds `SnowflakeAgent.__init__`: the effective key is
`api_key or os.environ.get("CEREBRAS_API_KEY")`; if it is falsy, a
`ValueError` is raised, before the client is built. No network oracle is
involved in construction (the source raises before constructing the client,
and client construction performs no request). -/
def SnowflakeAgent.init (api_key env : Option String) : Except InitError SnowflakeAgent :=
  let key := pyOr api_key env
  if pyTruthy key then
    Except.ok { api_key := key.getD "", model := "llama-3.3-70b" }
  else
    Except.error (InitError.configurationError keyRequiredMsg)

/-- The request `SnowflakeAgent.answer` hands to
`client.chat.completions.create`: the agent's model and exactly the system
message and the user question. -/
def SnowflakeAgent.answerRequest (a : SnowflakeAgent) (fs : Option String)
    (question : String) : ChatRequest :=
  { model := a.model,
    messages := [ { role := "system", content := SYSTEM_PROMPT fs },
                  { role := "user", content := question } ] }

/-- The fixed fallback string returned on a degenerate-success response. -/
def fallbackResponse : String :=
  "I apologize, but I couldn\x27t generate a response. Please try again."

/-- The prefix of the string returned when the remote call raises. -/
def remoteErrorText (e : String) : String :=
  "Error communicating with the AI service: " ++ e

/-- Embeds `SnowflakeAgent.answer`: issue the two-message request; any
exception of the remote call is caught and rendered as
`remoteErrorText (str e)`; a response with no `choices` attribute, zero
choices, or a falsy first message yields `fallbackResponse`; otherwise the
trimmed content of the first choice is returned. -/
def SnowflakeAgent.answer (a : SnowflakeAgent) (fs : Option String)
    (remote : String → ChatRequest → Except String ChatResponse)
    (question : String) : String :=
  match remote a.api_key (a.answerRequest fs question) with
  | Except.error e => remoteErrorText e
  | Except.ok response =>
    match response.choices with
    | none => fallbackResponse
    | some [] => fallbackResponse
    | some (c :: _) =>
      match c.message with
      | none => fallbackResponse
      | some m => m.content.trim

/-- Embeds `get_snowflake_answer`: construct a fresh agent with the given key
and answer the question with it; the construction error propagates to the
caller. -/
def get_snowflake_answer (fs env : Option String)
    (remote : String → ChatRequest → Except String ChatResponse)
    (question : String) (api_key : Option String) : Except InitError String :=
  match SnowflakeAgent.init api_key env with
  | Except.error e => Except.error e
  | Except.ok agent => Except.ok (agent.answer fs remote question)

/-- A sequence of independent `answer` calls on one agent, in order
(each page interaction in `src/new-app.py` issues one such call). -/
def runCalls (a : SnowflakeAgent) (fs : Option String)
    (remote : String → ChatRequest → Except String ChatResponse)
    (qs : List String) : List String :=
  qs.map (a.answer fs remote)

/-- The FAQ document over process time: `doc i` is the file content at time
`i`; time `0` is process start (module import). -/
def requestCallAt (a : SnowflakeAgent) (doc : Nat → Option String)
    (i : Nat) (q : String) : ChatRequest :=
  a.answerRequest (doc 0) q

/-- The answer of a call issued at time `i`. The module-level `FAQ_CONTENT`
and `SYSTEM_PROMPT` are computed at import (time `0`) and `answer` never
re-reads the document, so the call depends on `doc 0` only. -/
def answerCallAt (a : SnowflakeAgent) (doc : Nat → Option String)
    (remote : String → ChatRequest → Except String ChatResponse)
    (i : Nat) (q : String) : String :=
  a.answer (doc 0) remote q

/-- The session state of `src/new-app.py`: the keys `transcript` and
`answer` of `st.session_state`, both defaulting to the empty string. -/
structure SessionState where
  transcript : String
  answer : String
deriving DecidableEq, Repr

/-- The initial session state (both keys default to the empty string). -/
def initialSession : SessionState :=
  { transcript := "", answer := "" }

/-- Embeds the transcribe handler (lines 75-76 of `src/new-app.py`): store the
transcript text and clear any previous answer. -/
def onTranscribed (s : SessionState) (transcriptText : String) : SessionState :=
  { s with transcript := transcriptText, answer := "" }

/-- Embeds the ask handler (lines 94-101 of `src/new-app.py`): answer the
(possibly user-edited) transcript and store the result under `answer`;
the stored `transcript` is not touched. -/
def onAsk (a : SnowflakeAgent) (fs : Option String)
    (remote : String → ChatRequest → Except String ChatResponse)
    (s : SessionState) (editedTranscript : String) : SessionState :=
  { s with answer := a.answer fs remote editedTranscript }

/-- Embeds the follow-up handler (lines 114-123 of `src/new-app.py`): answer
the typed follow-up and overwrite `answer`; `transcript` is untouched. -/
def onFollowup (a : SnowflakeAgent) (fs : Option String)
    (remote : String → ChatRequest → Except String ChatResponse)
    (s : SessionState) (followup : String) : SessionState :=
  { s with answer := a.answer fs remote followup }

/-- An optional string is Python-falsy exactly when it is `None` or the empty
string. -/
theorem pyTruthy_eq_false_iff (o : Option String) :
    pyTruthy o = false ↔ (o = none ∨ o = some "") := by
  cases o with
  | none => simp [pyTruthy]
  | some s => simp [pyTruthy]

/-- Claim C1: once an agent exists, `answer q` is a total function into
strings: every remote outcome yields a returned string, which is the caught
exception rendered as `remoteErrorText`, the fixed fallback, or trimmed
response content; nothing escapes the `answer` boundary. -/
theorem agent_answer_total (a : SnowflakeAgent) (fs : Option String)
    (remote : String → ChatRequest → Except String ChatResponse) (q : String) :
    (∃ e, remote a.api_key (a.answerRequest fs q) = Except.error e ∧
      a.answer fs remote q = remoteErrorText e) ∨
    a.answer fs remote q = fallbackResponse ∨
    (∃ m : RespMessage, a.answer fs remote q = m.content.trim) := by
  cases hr : remote a.api_key (a.answerRequest fs q) with
  | error e => exact Or.inl ⟨e, rfl, by simp [SnowflakeAgent.answer, hr]⟩
  | ok resp =>
    cases hc : resp.choices with
    | none => exact Or.inr (Or.inl (by simp [SnowflakeAgent.answer, hr, hc]))
    | some l =>
      cases l with
      | nil => exact Or.inr (Or.inl (by simp [SnowflakeAgent.answer, hr, hc]))
      | cons c cs =>
        cases hm : c.message with
        | none => exact Or.inr (Or.inl (by simp [SnowflakeAgent.answer, hr, hc, hm]))
        | some m =>
          exact Or.inr (Or.inr ⟨m, by simp [SnowflakeAgent.answer, hr, hc, hm]⟩)

/-- Claim C2: construction with a Python-falsy effective credential (argument
empty or absent and environment variable unset or empty) fails with the
configuration error, with no network oracle involved; a truthy effective
credential makes construction succeed. -/
theorem agent_init_credential (api_key env : Option String) :
    (pyTruthy (pyOr api_key env) = false →
      SnowflakeAgent.init api_key env
        = Except.error (InitError.configurationError keyRequiredMsg)) ∧
    (pyTruthy (pyOr api_key env) = true →
      ∃ a, SnowflakeAgent.init api_key env = Except.ok a) ∧
    (pyTruthy (pyOr api_key env) = false ↔
      (api_key = none ∨ api_key = some "") ∧ (env = none ∨ env = some "")) := by
  refine ⟨?_, ?_, ?_⟩
  · intro h
    simp [SnowflakeAgent.init, h]
  · intro h
    refine ⟨{ api_key := (pyOr api_key env).getD "", model := "llama-3.3-70b" }, ?_⟩
    simp [SnowflakeAgent.init, h]
  · cases hk : pyTruthy api_key with
    | true =>
      simp only [pyOr, hk, if_true]
      constructor
      · intro h
        exact absurd h (by simp)
      · rintro ⟨h1, _⟩
        have hf := (pyTruthy_eq_false_iff api_key).mpr h1
        rw [hk] at hf
        exact absurd hf (by simp)
    | false =>
      simp only [pyOr, hk, if_false]
      rw [pyTruthy_eq_false_iff]
      constructor
      · intro h
        exact ⟨(pyTruthy_eq_false_iff api_key).mp hk, h⟩
      · rintro ⟨_, h2⟩
        exact h2

/-- Witness for C2 at the concrete input `none`, `none`. -/
theorem agent_init_credential_witness :
    SnowflakeAgent.init none none
      = Except.error (InitError.configurationError keyRequiredMsg) :=
  (agent_init_credential none none).1 rfl

/-- Claim C3: when the remote call raises `e`, `answer q` returns exactly the
string `"Error communicating with the AI service: "` followed by the string
form of `e`, as a value rather than a thrown error. -/
theorem answer_remote_error (a : SnowflakeAgent) (fs : Option String)
    (remote : String → ChatRequest → Except String ChatResponse) (q e : String)
    (h : remote a.api_key (a.answerRequest fs q) = Except.error e) :
    a.answer fs remote q = "Error communicating with the AI service: " ++ e := by
  unfold SnowflakeAgent.answer
  rw [h]
  rfl

/-- Witness for C3 at a concrete failing remote call. -/
theorem answer_remote_error_witness :
    SnowflakeAgent.answer ⟨"key", "llama-3.3-70b"⟩ none
      (fun _ _ => Except.error "boom") "q"
      = "Error communicating with the AI service: " ++ "boom" :=
  answer_remote_error ⟨"key", "llama-3.3-70b"⟩ none
    (fun _ _ => Except.error "boom") "q" "boom" rfl

/-- Claim C4: when the remote call succeeds but the response has no choices
attribute, zero choices, or a falsy first message, `answer q` returns exactly
the fixed fallback string. -/
theorem answer_degenerate (a : SnowflakeAgent) (fs : Option String)
    (remote : String → ChatRequest → Except String ChatResponse)
    (q : String) (resp : ChatResponse)
    (hok : remote a.api_key (a.answerRequest fs q) = Except.ok resp)
    (hdeg : resp.choices = none ∨ resp.choices = some [] ∨
      ∃ c cs, resp.choices = some (c :: cs) ∧ c.message = none) :
    a.answer fs remote q
      = "I apologize, but I couldn\x27t generate a response. Please try again." := by
  rcases hdeg with h | h | ⟨c, cs, h, hm⟩
  · simp [SnowflakeAgent.answer, hok, h, fallbackResponse]
  · simp [SnowflakeAgent.answer, hok, h, fallbackResponse]
  · simp [SnowflakeAgent.answer, hok, h, hm, fallbackResponse]

/-- Witness for C4 at a concrete zero-choice response. -/
theorem answer_degenerate_witness :
    SnowflakeAgent.answer ⟨"key", "llama-3.3-70b"⟩ none
      (fun _ _ => Except.ok { choices := some [] }) "q"
      = "I apologize, but I couldn\x27t generate a response. Please try again." :=
  answer_degenerate ⟨"key", "llama-3.3-70b"⟩ none
    (fun _ _ => Except.ok { choices := some [] }) "q" { choices := some [] }
    rfl (Or.inr (Or.inl rfl))

/-- Claim C5: the system prompt is the fixed instruction block with the FAQ
text interpolated verbatim between separator lines, so every FAQ text is a
substring of its prompt bracketed by the separators; in particular any FAQ
containing the Time Travel sentence yields a prompt containing that literal
sentence. -/
theorem system_prompt_embeds_faq (faq : String) :
    (∃ a b, mkSystemPrompt faq = a ++ ("---\n" ++ faq ++ "\n---") ++ b) ∧
    (∀ pre post,
      faq = pre ++ "Time Travel lets you query historical data." ++ post →
      ∃ a b, mkSystemPrompt faq
        = a ++ "Time Travel lets you query historical data." ++ b) := by
  constructor
  · refine ⟨promptIntroHead, promptInstructionsTail, ?_⟩
    have h1 : promptIntro = promptIntroHead ++ "---\n" := rfl
    have h2 : promptInstructions = "\n---" ++ promptInstructionsTail := rfl
    show promptIntro ++ faq ++ promptInstructions = _
    rw [h1, h2]
    simp [String.append_assoc]
  · rintro pre post rfl
    refine ⟨promptIntro ++ pre, post ++ promptInstructions, ?_⟩
    simp [mkSystemPrompt, String.append_assoc]

/-- Witness for C5 at a concrete FAQ containing the Time Travel sentence. -/
theorem system_prompt_embeds_faq_witness :
    ∃ a b,
      mkSystemPrompt
        "Q: What is Time Travel?\nA: Time Travel lets you query historical data.\n"
      = a ++ "Time Travel lets you query historical data." ++ b :=
  (system_prompt_embeds_faq
    "Q: What is Time Travel?\nA: Time Travel lets you query historical data.\n").2
    "Q: What is Time Travel?\nA: " "\n" rfl

/-- Claim C6: every constructed agent sends exactly the system message and the
user question under the fixed model identifier "llama-3.3-70b"; calls carry no
history (the result of a call appended to any call sequence is the same as the
call made alone); on success with a first choice carrying a message, the
trimmed content of that message is returned. -/
theorem answer_request_shape (k env fs : Option String) (a : SnowflakeAgent)
    (remote : String → ChatRequest → Except String ChatResponse)
    (q : String) (qs : List String)
    (h : SnowflakeAgent.init k env = Except.ok a) :
    (a.answerRequest fs q).model = "llama-3.3-70b" ∧
    (a.answerRequest fs q).messages
      = [ { role := "system", content := SYSTEM_PROMPT fs },
          { role := "user", content := q } ] ∧
    runCalls a fs remote (qs ++ [q])
      = runCalls a fs remote qs ++ [a.answer fs remote q] ∧
    (∀ resp c cs m, remote a.api_key (a.answerRequest fs q) = Except.ok resp →
      resp.choices = some (c :: cs) → c.message = some m →
      a.answer fs remote q = m.content.trim) := by
  have hm : a.model = "llama-3.3-70b" := by
    simp only [SnowflakeAgent.init] at h
    split_ifs at h with hc
    injection h with h2
    rw [← h2]
  refine ⟨hm, rfl, by simp [runCalls], ?_⟩
  intro resp c cs m hok hc hmsg
  simp [SnowflakeAgent.answer, hok, hc, hmsg]

/-- Witness for C6 at a concretely constructed agent. -/
theorem answer_request_shape_witness :
    (SnowflakeAgent.answerRequest ⟨"key", "llama-3.3-70b"⟩ none "hello").model
      = "llama-3.3-70b" :=
  (answer_request_shape (some "key") none none ⟨"key", "llama-3.3-70b"⟩
    (fun _ _ => Except.error "down") "hello" [] rfl).1

/-- Claim C7: in the session state machine over `transcript` and `answer`
(both defaulting to ""), completing a transcription stores the transcript and
resets `answer` to ""; the ask action sets `answer` to the agent text and
leaves `transcript` unchanged; a follow-up overwrites `answer` with the new
agent text and leaves `transcript` unchanged. -/
theorem session_flow (a : SnowflakeAgent) (fs : Option String)
    (remote : String → ChatRequest → Except String ChatResponse)
    (t q1 q2 : String) :
    (∀ s : SessionState,
      onTranscribed s t = { transcript := t, answer := "" }) ∧
    onAsk a fs remote (onTranscribed initialSession t) q1
      = { transcript := t, answer := a.answer fs remote q1 } ∧
    onFollowup a fs remote (onAsk a fs remote (onTranscribed initialSession t) q1) q2
      = { transcript := t, answer := a.answer fs remote q2 } :=
  ⟨fun _ => rfl, rfl, rfl⟩

/-- Claim C8: the FAQ load operation returns the full document text when the
document is present and the empty string when it is absent; it is a total
function and never fails the caller. -/
theorem load_faq_total (text : String) :
    load_faq_content (some text) = text ∧ load_faq_content none = "" :=
  ⟨rfl, rfl⟩

/-- Claim C9: the FAQ content baked into the prompt is fixed for the process
lifetime: the request and answer of a call at any time equal those of a call
at any other time, and two document timelines agreeing at process start give
identical answers, so edits after start never affect a call. -/
theorem faq_fixed_for_process (a : SnowflakeAgent)
    (doc docB : Nat → Option String)
    (remote : String → ChatRequest → Except String ChatResponse)
    (i j : Nat) (q : String) (h : doc 0 = docB 0) :
    requestCallAt a doc i q = requestCallAt a doc j q ∧
    answerCallAt a doc remote i q = answerCallAt a doc remote j q ∧
    answerCallAt a doc remote i q = answerCallAt a docB remote i q := by
  refine ⟨rfl, rfl, ?_⟩
  unfold answerCallAt
  rw [h]

/-- Witness for C9: a document edited after time 0 yields the same answer as
the unedited document. -/
theorem faq_fixed_for_process_witness :
    answerCallAt ⟨"key", "llama-3.3-70b"⟩ (fun _ => some "faq v1")
      (fun _ _ => Except.error "down") 3 "q"
    = answerCallAt ⟨"key", "llama-3.3-70b"⟩
      (fun n => if n = 0 then some "faq v1" else some "faq v2")
      (fun _ _ => Except.error "down") 3 "q" :=
  (faq_fixed_for_process ⟨"key", "llama-3.3-70b"⟩ (fun _ => some "faq v1")
    (fun n => if n = 0 then some "faq v1" else some "faq v2")
    (fun _ _ => Except.error "down") 3 3 "q" rfl).2.2

/-- Claim C10: `get_snowflake_answer q k` builds a fresh agent and delegates:
with a falsy key argument and falsy environment credential it fails with the
construction-time configuration error, and whenever construction succeeds it
returns exactly that agent's answer string. -/
theorem get_answer_delegates (fs env : Option String)
    (remote : String → ChatRequest → Except String ChatResponse)
    (q : String) (k : Option String) :
    ((k = none ∨ k = some "") → (env = none ∨ env = some "") →
      get_snowflake_answer fs env remote q k
        = Except.error (InitError.configurationError keyRequiredMsg)) ∧
    (∀ a, SnowflakeAgent.init k env = Except.ok a →
      get_snowflake_answer fs env remote q k
        = Except.ok (a.answer fs remote q)) := by
  constructor
  · intro hk henv
    have hfalse : pyTruthy (pyOr k env) = false := by
      rcases hk with h | h <;> rcases henv with h2 | h2 <;> subst h <;> subst h2 <;> rfl
    simp [get_snowflake_answer, SnowflakeAgent.init, hfalse]
  · intro a ha
    simp [get_snowflake_answer, ha]

/-- Witness for C10 at the concrete input of an absent key and unset
environment variable. -/
theorem get_answer_delegates_witness :
    get_snowflake_answer none none (fun _ _ => Except.error "x") "q" none
      = Except.error (InitError.configurationError keyRequiredMsg) :=
  (get_answer_delegates none none (fun _ _ => Except.error "x") "q" none).1
    (Or.inl rfl) (Or.inl rfl)
